import Mathlib

/-!
Verification of the health-monitor service in `src/main.ts` (a Deno HTTP
service that probes a fixed list of endpoints, classifies each probe into a
`HealthRecord`, caches the latest batch, and serves the cache over HTTP).

The embedding is shallow: network nondeterminism (what a `fetch` of one URL
would return, how long it takes, whether the body reads succeed) is packaged
into a `ProbeEnv` oracle per probe; JavaScript exceptions are modelled by the
`TryResult` type carrying the error message; JSON values are abstract (the
claims never inspect inside a parsed value). Server state is the module-level
`lastCheckResults` array, threaded explicitly through `handler`.
-/

/-- An entry of the `ENDPOINTS` configuration array (src/main.ts lines 5-14). -/
structure EndpointDescriptor where
  name : String
  url : String
deriving DecidableEq, Inhabited

/-- The configured endpoint list `ENDPOINTS` (src/main.ts lines 5-14). -/
def ENDPOINTS : List EndpointDescriptor :=
  [ { name := "Gemini Balance",
      url := "https://luckiness-me-gemini-balance.hf.space/health" },
    { name := "Demo API",
      url := "https://luckiness-test-df-demo.hf.space/health" } ]

/-- `TIMEOUT_MS` (src/main.ts line 17). -/
def TIMEOUT_MS : Nat := 5000

/-- Outcome of a JavaScript expression that can throw: either a value or a
thrown error, recorded by its `error.message` string. -/
inductive TryResult (α : Type) where
  | ok (v : α)
  | thrown (msg : String)
deriving DecidableEq

/-- Parsed JSON values are opaque to every claim, so they are modelled
abstractly by their source text. -/
structure JsonValue where
  raw : String
deriving DecidableEq

/-- What `response.json()` / `response.text()` produce in `checkHealth`:
either a parsed JSON value or the raw text body. -/
inductive ResponseData where
  | json (v : JsonValue)
  | text (s : String)
deriving DecidableEq

/-- The observable pieces of a `fetch` `Response` that `checkHealth` uses:
the status code, the `content-type` header (`none` models a `null` header),
and the outcomes of reading the body as JSON or as text (each can throw). -/
structure FetchResponse where
  status : Nat
  contentType : Option String
  jsonResult : TryResult JsonValue
  textResult : TryResult String
deriving DecidableEq

/-- The oracle for one probe: how many milliseconds the underlying `fetch`
takes to settle (`elapsed`), what it settles to if not aborted (`result`),
and the ISO timestamp `new Date().toISOString()` observed when the record is
built. -/
structure ProbeEnv where
  elapsed : Nat
  result : TryResult FetchResponse
  timestamp : String
deriving DecidableEq

/-- Message of the `AbortError` a fetch rejects with when its signal fires. -/
def abortMessage : String := "The signal has been aborted."

/-- `fetchWithTimeout` (src/main.ts lines 25-40): starts an abort timer of
`timeout` ms beside the request; if the fetch would settle only after the
timer fires, the request is aborted and the call throws the abort error,
otherwise the fetch's own outcome (response or thrown network error) is
returned. `clearTimeout` has no observable effect in the model. -/
def fetchWithTimeout (env : ProbeEnv) (timeout : Nat) : TryResult FetchResponse :=
  if timeout < env.elapsed then .thrown abortMessage else env.result

/-- `chars1.isPrefixOfChars chars2`: character-list prefix test, structural so
that it reduces in the kernel. -/
def isPrefixOfChars : List Char → List Char → Bool
  | [], _ => true
  | _ :: _, [] => false
  | p :: ps, c :: cs => p == c && isPrefixOfChars ps cs

/-- `containsSub pat s`: does `s` contain `pat` as a contiguous substring? -/
def containsSub (pat : List Char) : List Char → Bool
  | [] => isPrefixOfChars pat []
  | c :: rest => isPrefixOfChars pat (c :: rest) || containsSub pat rest

/-- JavaScript `s.includes(pat)` for strings: substring containment. -/
def includesSubstr (s pat : String) : Bool :=
  containsSub pat.data s.data

/-- The body-reading step of `checkHealth` (src/main.ts lines 52-59): take the
`content-type` header (empty string when absent), and read the body as JSON
when it mentions `application/json`, as text otherwise; either read can
throw. -/
def readBody (resp : FetchResponse) : TryResult ResponseData :=
  let contentType := resp.contentType.getD ""
  if includesSubstr contentType "application/json" then
    match resp.jsonResult with
    | .ok v => .ok (.json v)
    | .thrown msg => .thrown msg
  else
    match resp.textResult with
    | .ok s => .ok (.text s)
    | .thrown msg => .thrown msg

/-- The record `checkHealth` returns (src/main.ts lines 61-79). `latency`,
`response` and `error` are `Option`s: `none` models an absent field. -/
structure HealthRecord where
  name : String
  url : String
  status : Nat
  healthy : Bool
  latency : Option String
  response : Option ResponseData
  error : Option String
  timestamp : String
deriving DecidableEq

/-- `checkHealth` (src/main.ts lines 45-81): probe one endpoint. The `try`
block fetches with timeout, measures latency, reads the body according to the
content type, and builds a success record; any throw (abort, network error,
or body read failure) lands in the `catch`, which builds an error record with
the `status = 0` sentinel. -/
def checkHealth (endpoint : EndpointDescriptor) (env : ProbeEnv) : HealthRecord :=
  match fetchWithTimeout env TIMEOUT_MS with
  | .thrown msg =>
    { name := endpoint.name, url := endpoint.url, status := 0, healthy := false,
      latency := none, response := none, error := some msg,
      timestamp := env.timestamp }
  | .ok resp =>
    match readBody resp with
    | .thrown msg =>
      { name := endpoint.name, url := endpoint.url, status := 0, healthy := false,
        latency := none, response := none, error := some msg,
        timestamp := env.timestamp }
    | .ok data =>
      { name := endpoint.name, url := endpoint.url, status := resp.status,
        healthy := decide (200 ≤ resp.status) && decide (resp.status < 300),
        latency := some (toString env.elapsed ++ "ms"),
        response := some data, error := none,
        timestamp := env.timestamp }

/-- A world assigns every position in the endpoint list the oracle for the
fetch that the probe at that position would perform. -/
def World : Type := Nat → ProbeEnv

/-- `checkAll` starting from position `i`: the `ENDPOINTS.map(checkHealth)`
fan-out, with each element's probe drawing on the world at its index. -/
def checkAllFrom (i : Nat) (w : World) : List EndpointDescriptor → List HealthRecord
  | [] => []
  | e :: rest => checkHealth e (w i) :: checkAllFrom (i + 1) w rest

/-- `Promise.all(endpoints.map(checkHealth))` (src/main.ts lines 90 and 282):
one record per endpoint, in input order. -/
def checkAll (endpoints : List EndpointDescriptor) (w : World) : List HealthRecord :=
  checkAllFrom 0 w endpoints

/-- The slot-filling semantics of `Promise.all`: start from `n` unfilled
slots and, as the probes complete in the order given by `order`, write each
completed result into its own slot. -/
def promiseAllSchedule (order : List Nat) (n : Nat) (f : Nat → HealthRecord) :
    List (Option HealthRecord) :=
  order.foldl (fun acc i => acc.set i (some (f i))) (List.replicate n none)

/-- `backgroundHealthCheck` (src/main.ts lines 88-92): run a batch check and
overwrite `lastCheckResults` with it; the function's value is the new cache
contents. -/
def backgroundHealthCheck (w : World) : List HealthRecord :=
  checkAll ENDPOINTS w

/-- Initial value of `lastCheckResults` (src/main.ts line 85). -/
def initialLastCheckResults : List HealthRecord := []

/-- An incoming HTTP request, reduced to what `handler` inspects: the method
and the URL's pathname. -/
structure Request where
  method : String
  path : String
deriving DecidableEq

/-- The body of a response `handler` can produce: the empty preflight body,
the dashboard HTML page (contents irrelevant to every claim), a JSON array of
records, a single JSON record, or plain text. -/
inductive ResponseBody where
  | empty
  | html
  | jsonRecords (records : List HealthRecord)
  | jsonRecord (record : HealthRecord)
  | textBody (s : String)
deriving DecidableEq

/-- An outgoing HTTP response: status code and body (`new Response` defaults
to status 200 when none is given). CORS headers carry no information used by
any claim and are left out. -/
structure HttpResponse where
  status : Nat
  body : ResponseBody
deriving DecidableEq

/-- Strip `pre` from the front of `s`, or fail. -/
def dropPrefixChars : List Char → List Char → Option (List Char)
  | [], s => some s
  | _ :: _, [] => none
  | p :: ps, c :: cs => if p == c then dropPrefixChars ps cs else none

/-- Decimal value of a digit run; fails at the first non-digit. -/
def digitsToNat (acc : Nat) : List Char → Option Nat
  | [] => some acc
  | c :: cs => if c.isDigit then digitsToNat (acc * 10 + (c.toNat - 48)) cs else none

/-- The route test `url.pathname.match(/^\/check\/(\d+)$/)` followed by
`parseInt(match[1])` (src/main.ts lines 306-308): succeeds exactly on paths
of the form `/check/<one or more ASCII digits>` and yields the decimal
value. -/
def parseCheckIndex (path : String) : Option Nat :=
  match dropPrefixChars "/check/".data path.data with
  | none => none
  | some [] => none
  | some (c :: cs) => digitsToNat 0 (c :: cs)

/-- `handler` (src/main.ts lines 97-329) as a state transition on the
`lastCheckResults` cache: given the request, the world of probe oracles, and
the current cache, produce the response and the new cache. The branches are
in source order: OPTIONS preflight, `/`, `/check` (runs a batch and
overwrites the cache), `/last-check` (serves the cache), `/check/{index}`
(probes one endpoint, in range only), and the 404 fall-through. -/
def handler (req : Request) (w : World) (st : List HealthRecord) :
    HttpResponse × List HealthRecord :=
  if req.method = "OPTIONS" then
    ({ status := 200, body := .empty }, st)
  else if req.path = "/" then
    ({ status := 200, body := .html }, st)
  else if req.path = "/check" then
    let results := checkAll ENDPOINTS w
    ({ status := 200, body := .jsonRecords results }, results)
  else if req.path = "/last-check" then
    ({ status := 200, body := .jsonRecords st }, st)
  else
    match parseCheckIndex req.path with
    | some index =>
      if index < ENDPOINTS.length then
        ({ status := 200,
           body := .jsonRecord (checkHealth (ENDPOINTS.getD index default) (w index)) }, st)
      else
        ({ status := 404, body := .textBody "Not Found" }, st)
    | none => ({ status := 404, body := .textBody "Not Found" }, st)

/-- A concrete successful JSON response: status 200, JSON content type,
parseable body. -/
def respOk200 : FetchResponse :=
  { status := 200, contentType := some "application/json",
    jsonResult := .ok { raw := "\x7b\"status\":\"ok\"\x7d" },
    textResult := .ok "\x7b\"status\":\"ok\"\x7d" }

/-- A concrete 503 response with a plain-text body. -/
def respBad503 : FetchResponse :=
  { status := 503, contentType := some "text/plain",
    jsonResult := .thrown "Unexpected token", textResult := .ok "unavailable" }

/-- Oracle for a probe that succeeds quickly with `respOk200`. -/
def envOk200 : ProbeEnv :=
  { elapsed := 42, result := .ok respOk200,
    timestamp := "2026-01-01T00:00:00.000Z" }

/-- Oracle for a probe that gets `respBad503` before the deadline. -/
def envBad503 : ProbeEnv :=
  { elapsed := 99, result := .ok respBad503,
    timestamp := "2026-01-01T00:00:01.000Z" }

/-- Oracle for a probe whose fetch would settle only after the 5000 ms
deadline, so the abort timer wins. -/
def envTimeout : ProbeEnv :=
  { elapsed := 6000, result := .ok respOk200,
    timestamp := "2026-01-01T00:00:02.000Z" }

/-- Oracle for a probe whose fetch throws a network error. -/
def envNetworkFail : ProbeEnv :=
  { elapsed := 7, result := .thrown "error sending request",
    timestamp := "2026-01-01T00:00:03.000Z" }

/-- A well-formed HTTP 200 response whose declared-JSON body fails to
parse. -/
def respParseFail : FetchResponse :=
  { status := 200, contentType := some "application/json",
    jsonResult := .thrown "Unexpected end of JSON input",
    textResult := .ok "\x7b\"trunc" }

/-- Oracle for a probe that receives `respParseFail` before the deadline. -/
def envParseFail : ProbeEnv :=
  { elapsed := 31, result := .ok respParseFail,
    timestamp := "2026-01-01T00:00:04.000Z" }

/-- A fixed endpoint descriptor used to exercise the prober. -/
def demoEndpoint : EndpointDescriptor :=
  { name := "Demo API", url := "https://luckiness-test-df-demo.hf.space/health" }

/-- A concrete world: position 0 probes succeed, position 1 probes fail. -/
def demoWorld : World :=
  fun i => if i = 0 then envOk200 else envNetworkFail

/-- `statusPositive t`: every response actually carried by `t` has a nonzero
HTTP status, as any real (non-opaque) `fetch` response does. -/
def statusPositive : TryResult FetchResponse → Bool
  | .ok resp => decide (0 < resp.status)
  | .thrown _ => true

/-- `receivedResponse env`: the probe's `fetchWithTimeout` call did deliver a
`Response` object (was neither aborted nor rejected). -/
def receivedResponse (env : ProbeEnv) : Bool :=
  match fetchWithTimeout env TIMEOUT_MS with
  | .ok _ => true
  | .thrown _ => false

/-- The conclusion of claim C3, over an endpoint `e`, a probe oracle `env`
whose fetch delivers `resp`, a parsed JSON value `v`, and a read body `d`:
a 200 response with a JSON content type and parseable body classifies as
healthy with the parsed JSON attached and no error; a 503 response whose
body reads fine classifies as unhealthy with no error; and in every case the
record's `healthy` bit is true exactly when its status is in `[200, 300)`. -/
def c3Conclusion (e : EndpointDescriptor) (env : ProbeEnv) (resp : FetchResponse)
    (v : JsonValue) (d : ResponseData) : Prop :=
  (resp.status = 200 →
      includesSubstr (resp.contentType.getD "") "application/json" = true →
      resp.jsonResult = TryResult.ok v →
      (checkHealth e env).healthy = true ∧ (checkHealth e env).status = 200 ∧
        (checkHealth e env).response = some (ResponseData.json v) ∧
        (checkHealth e env).error = none) ∧
  (resp.status = 503 →
      readBody resp = TryResult.ok d →
      (checkHealth e env).healthy = false ∧ (checkHealth e env).status = 503 ∧
        (checkHealth e env).error = none) ∧
  ((checkHealth e env).healthy = true ↔
    200 ≤ (checkHealth e env).status ∧ (checkHealth e env).status < 300)

/-! ## Helper lemmas about the batch checker and the `Promise.all` schedule -/

theorem checkAllFrom_length (w : World) (es : List EndpointDescriptor) (i : Nat) :
    (checkAllFrom i w es).length = es.length := by
  induction es generalizing i with
  | nil => rfl
  | cons e rest ih => simp [checkAllFrom, ih]

theorem checkAllFrom_getElem? (w : World) (es : List EndpointDescriptor) (i j : Nat) :
    (checkAllFrom i w es)[j]? = (es[j]?).map (fun e => checkHealth e (w (i + j))) := by
  induction es generalizing i j with
  | nil => simp [checkAllFrom]
  | cons e rest ih =>
    cases j with
    | zero => simp [checkAllFrom]
    | succ j =>
      have h := ih (i + 1) j
      simp only [checkAllFrom, List.getElem?_cons_succ, h]
      have harith : i + 1 + j = i + (j + 1) := by omega
      rw [harith]

theorem checkAll_length (endpoints : List EndpointDescriptor) (w : World) :
    (checkAll endpoints w).length = endpoints.length :=
  checkAllFrom_length w endpoints 0

theorem checkAll_getElem? (endpoints : List EndpointDescriptor) (w : World) (j : Nat) :
    (checkAll endpoints w)[j]? = (endpoints[j]?).map (fun e => checkHealth e (w j)) := by
  have h := checkAllFrom_getElem? w endpoints 0 j
  simpa [checkAll] using h

theorem getD_of_lt (es : List EndpointDescriptor) (j : Nat) (h : j < es.length) :
    es[j]? = some (es.getD j default) := by
  simp [List.getD_eq_getElem?_getD, List.getElem?_eq_getElem h]

theorem checkAll_eq_map_range (endpoints : List EndpointDescriptor) (w : World) :
    checkAll endpoints w =
      (List.range endpoints.length).map
        (fun i => checkHealth (endpoints.getD i default) (w i)) := by
  apply List.ext_getElem?
  intro j
  rw [checkAll_getElem?, List.getElem?_map]
  by_cases hj : j < endpoints.length
  · rw [List.getElem?_range hj, getD_of_lt endpoints j hj]
    rfl
  · have h1 : endpoints.length ≤ j := Nat.le_of_not_lt hj
    rw [List.getElem?_eq_none h1, List.getElem?_eq_none (by simpa using h1)]
    rfl

theorem fillSlots_length (f : Nat → HealthRecord) (order : List Nat)
    (acc : List (Option HealthRecord)) :
    (order.foldl (fun a i => a.set i (some (f i))) acc).length = acc.length := by
  induction order generalizing acc with
  | nil => rfl
  | cons i rest ih => simp [List.foldl_cons, ih]

theorem fillSlots_getElem? (f : Nat → HealthRecord) (order : List Nat)
    (acc : List (Option HealthRecord)) (j : Nat) :
    (order.foldl (fun a i => a.set i (some (f i))) acc)[j]? =
      if j ∈ order ∧ j < acc.length then some (some (f j)) else acc[j]? := by
  induction order generalizing acc with
  | nil => simp
  | cons i rest ih =>
    rw [List.foldl_cons, ih, List.length_set]
    by_cases hm : j ∈ rest
    · by_cases hl : j < acc.length
      · simp [hm, hl, List.mem_cons]
      · have h1 : acc.length ≤ j := Nat.le_of_not_lt hl
        have h2 : (acc.set i (some (f i)))[j]? = none :=
          List.getElem?_eq_none (by simpa using h1)
        simp [hm, hl, h2, List.getElem?_eq_none h1]
    · by_cases hij : i = j
      · subst hij
        by_cases hl : i < acc.length
        · simp [hm, hl, List.mem_cons, List.getElem?_set_self hl]
        · have h1 : acc.length ≤ i := Nat.le_of_not_lt hl
          simp [hm, hl, List.getElem?_set, List.getElem?_eq_none h1]
      · have h2 : (acc.set i (some (f i)))[j]? = acc[j]? := List.getElem?_set_ne hij
        have h4 : ¬ j = i := fun h => hij h.symm
        simp [hm, h2, List.mem_cons, h4]

theorem promiseAllSchedule_eq_of_perm (order : List Nat) (n : Nat)
    (f : Nat → HealthRecord) (h : order.Perm (List.range n)) :
    promiseAllSchedule order n f = (List.range n).map (fun i => some (f i)) := by
  apply List.ext_getElem?
  intro j
  rw [promiseAllSchedule, fillSlots_getElem?, List.getElem?_map]
  have hmem : j ∈ order ↔ j < n := by rw [h.mem_iff, List.mem_range]
  by_cases hj : j < n
  · simp [hmem, hj, List.getElem?_range hj]
  · have h1 : n ≤ j := Nat.le_of_not_lt hj
    simp [hmem, hj, List.getElem?_eq_none (l := List.range n) (by simpa using h1),
      List.getElem?_eq_none (l := List.replicate n (none : Option HealthRecord))
        (by simpa using h1)]

/-! ## Claim theorems -/

/-- C1: for every list of configured endpoint descriptors the batch check
returns exactly n records; the record at position i is the result of probing
endpoint i; and filling `Promise.all`'s result slots in any completion order
whatsoever yields exactly that in-input-order list. -/
theorem c1_batch_order (endpoints : List EndpointDescriptor) (w : World)
    (order : List Nat) (hperm : order.Perm (List.range endpoints.length)) :
    (checkAll endpoints w).length = endpoints.length ∧
    checkAll endpoints w =
      (List.range endpoints.length).map
        (fun i => checkHealth (endpoints.getD i default) (w i)) ∧
    promiseAllSchedule order endpoints.length
        (fun i => checkHealth (endpoints.getD i default) (w i)) =
      (checkAll endpoints w).map some := by
  refine ⟨checkAll_length endpoints w, checkAll_eq_map_range endpoints w, ?_⟩
  rw [promiseAllSchedule_eq_of_perm _ _ _ hperm, checkAll_eq_map_range,
    List.map_map]
  rfl

/-- Witness for C1 at the configured two-endpoint list, a concrete world, and
the reversed completion order `[1, 0]`. -/
theorem c1_batch_order_witness :
    List.Perm [1, 0] (List.range ENDPOINTS.length) ∧
    ((checkAll ENDPOINTS demoWorld).length = ENDPOINTS.length ∧
     checkAll ENDPOINTS demoWorld =
       (List.range ENDPOINTS.length).map
         (fun i => checkHealth (ENDPOINTS.getD i default) (demoWorld i)) ∧
     promiseAllSchedule [1, 0] ENDPOINTS.length
         (fun i => checkHealth (ENDPOINTS.getD i default) (demoWorld i)) =
       (checkAll ENDPOINTS demoWorld).map some) :=
  ⟨by decide, c1_batch_order ENDPOINTS demoWorld [1, 0] (by decide)⟩

/-- C2: every record `checkHealth` produces populates exactly one of the pair
`(latency, response)` or the field `error` — success records carry latency
and response and no error, failure records carry error and neither latency
nor response — and `healthy` always equals `200 <= status < 300` computed on
the record's own status. -/
theorem c2_record_invariant (e : EndpointDescriptor) (env : ProbeEnv) :
    (((checkHealth e env).error = none ∧
        ((checkHealth e env).latency).isSome = true ∧
        ((checkHealth e env).response).isSome = true) ∨
      (((checkHealth e env).error).isSome = true ∧
        (checkHealth e env).latency = none ∧
        (checkHealth e env).response = none)) ∧
    (checkHealth e env).healthy =
      (decide (200 ≤ (checkHealth e env).status) &&
        decide ((checkHealth e env).status < 300)) := by
  cases h : fetchWithTimeout env TIMEOUT_MS with
  | thrown msg => simp [checkHealth, h]
  | ok resp =>
    cases hb : readBody resp with
    | thrown msg => simp [checkHealth, h, hb]
    | ok data => simp [checkHealth, h, hb]

/-- C4: the prober is total — whatever the fetch throws (abort on timeout or
any network error), `checkHealth` returns a structured failure record rather
than propagating the exception, and the batch is still the full per-index map
over the endpoint list, so one endpoint's failure never fails or shortens the
batch. -/
theorem c4_prober_total (endpoints : List EndpointDescriptor) (w : World)
    (e : EndpointDescriptor) (env : ProbeEnv) (msg : String)
    (hthrown : fetchWithTimeout env TIMEOUT_MS = TryResult.thrown msg) :
    checkHealth e env =
      { name := e.name, url := e.url, status := 0, healthy := false,
        latency := none, response := none, error := some msg,
        timestamp := env.timestamp } ∧
    (checkAll endpoints w).length = endpoints.length ∧
    checkAll endpoints w =
      (List.range endpoints.length).map
        (fun i => checkHealth (endpoints.getD i default) (w i)) := by
  refine ⟨?_, checkAll_length endpoints w, checkAll_eq_map_range endpoints w⟩
  unfold checkHealth
  rw [hthrown]

/-- Witness for C4: a probe whose fetch rejects with a network error, inside
the configured endpoint list under a world where endpoint 1 fails. -/
theorem c4_prober_total_witness :
    fetchWithTimeout envNetworkFail TIMEOUT_MS =
        TryResult.thrown "error sending request" ∧
    (checkHealth demoEndpoint envNetworkFail =
      { name := demoEndpoint.name, url := demoEndpoint.url, status := 0,
        healthy := false, latency := none, response := none,
        error := some "error sending request",
        timestamp := envNetworkFail.timestamp } ∧
     (checkAll ENDPOINTS demoWorld).length = ENDPOINTS.length ∧
     checkAll ENDPOINTS demoWorld =
       (List.range ENDPOINTS.length).map
         (fun i => checkHealth (ENDPOINTS.getD i default) (demoWorld i))) :=
  ⟨rfl, c4_prober_total ENDPOINTS demoWorld demoEndpoint envNetworkFail
    "error sending request" rfl⟩

/-- C5: when the fetch would settle only after the configured timeout
(default 5000 ms), the request is aborted and the record has `status = 0`,
`healthy = false`, an error field, and no latency or response. -/
theorem c5_timeout_record (e : EndpointDescriptor) (env : ProbeEnv)
    (h : TIMEOUT_MS < env.elapsed) :
    TIMEOUT_MS = 5000 ∧
    checkHealth e env =
      { name := e.name, url := e.url, status := 0, healthy := false,
        latency := none, response := none, error := some abortMessage,
        timestamp := env.timestamp } := by
  refine ⟨rfl, ?_⟩
  unfold checkHealth fetchWithTimeout
  rw [if_pos h]

/-- Witness for C5: a probe whose fetch would take 6000 ms. -/
theorem c5_timeout_record_witness :
    TIMEOUT_MS < envTimeout.elapsed ∧
    (TIMEOUT_MS = 5000 ∧
     checkHealth demoEndpoint envTimeout =
       { name := demoEndpoint.name, url := demoEndpoint.url, status := 0,
         healthy := false, latency := none, response := none,
         error := some abortMessage, timestamp := envTimeout.timestamp }) :=
  ⟨by decide, c5_timeout_record demoEndpoint envTimeout (by decide)⟩

/-- C3: for a fetch that succeeds within the deadline, a 200 response with a
JSON content type and parseable body yields `healthy = true`, `status = 200`,
`response` the parsed JSON, and no error; a 503 response yields
`healthy = false`, `status = 503`, no error; and `healthy` is true iff
`200 <= status < 300`. -/
theorem c3_classification (e : EndpointDescriptor) (env : ProbeEnv)
    (resp : FetchResponse) (v : JsonValue) (d : ResponseData)
    (hok : env.result = TryResult.ok resp) (ht : env.elapsed ≤ TIMEOUT_MS) :
    c3Conclusion e env resp v d := by
  have hfetch : fetchWithTimeout env TIMEOUT_MS = TryResult.ok resp := by
    unfold fetchWithTimeout
    rw [if_neg (Nat.not_lt.mpr ht), hok]
  refine ⟨?_, ?_, ?_⟩
  · intro h200 hct hjson
    have hread : readBody resp = TryResult.ok (ResponseData.json v) := by
      simp [readBody, hct, hjson]
    simp [checkHealth, hfetch, hread, h200]
  · intro h503 hread
    simp [checkHealth, hfetch, hread, h503]
  · cases hb : readBody resp with
    | thrown msg => simp [checkHealth, hfetch, hb]
    | ok data => simp [checkHealth, hfetch, hb]

/-- Witness for C3: a concrete probe that gets a 200 JSON response in 42 ms. -/
theorem c3_classification_witness :
    (envOk200.result = TryResult.ok respOk200 ∧ envOk200.elapsed ≤ TIMEOUT_MS) ∧
    c3Conclusion demoEndpoint envOk200 respOk200
      { raw := "\x7b\"status\":\"ok\"\x7d" } (ResponseData.text "unavailable") :=
  ⟨⟨rfl, by decide⟩,
    c3_classification demoEndpoint envOk200 respOk200
      { raw := "\x7b\"status\":\"ok\"\x7d" } (ResponseData.text "unavailable")
      rfl (by decide)⟩

/-- C6 counterexample: a probe that does receive a response — the fetch
settles with an HTTP 200 `FetchResponse` — but whose declared-JSON body fails
to parse still produces a record with `status = 0`, so `status = 0` does not
occur only when the probe never received a response. -/
theorem c6_counterexample :
    receivedResponse envParseFail = true ∧
    fetchWithTimeout envParseFail TIMEOUT_MS = TryResult.ok respParseFail ∧
    respParseFail.status = 200 ∧
    (checkHealth demoEndpoint envParseFail).status = 0 ∧
    ((checkHealth demoEndpoint envParseFail).error).isSome = true :=
  ⟨rfl, rfl, rfl, rfl, rfl⟩

/-- C6 (amended): when the fetch succeeds but reading or parsing the body
throws, the prober produces the same failure-shaped record as a network
failure (`status = 0`, `healthy = false`, error set, no latency or response);
and `status = 0` marks exactly the records of failed probes — for any probe
whose delivered response (if any) has a nonzero HTTP status, the record has
`status = 0` iff its error field is populated. -/
theorem c6_parse_failure_classification (e : EndpointDescriptor)
    (env : ProbeEnv) (resp : FetchResponse) (msg : String)
    (e2 : EndpointDescriptor) (env2 : ProbeEnv)
    (hok : fetchWithTimeout env TIMEOUT_MS = TryResult.ok resp)
    (hbody : readBody resp = TryResult.thrown msg)
    (hpos : statusPositive env2.result = true) :
    checkHealth e env =
      { name := e.name, url := e.url, status := 0, healthy := false,
        latency := none, response := none, error := some msg,
        timestamp := env.timestamp } ∧
    ((checkHealth e2 env2).status = 0 ↔
      ((checkHealth e2 env2).error).isSome = true) := by
  constructor
  · simp [checkHealth, hok, hbody]
  · cases h2 : fetchWithTimeout env2 TIMEOUT_MS with
    | thrown m => simp [checkHealth, h2]
    | ok resp2 =>
      have hres : env2.result = TryResult.ok resp2 := by
        unfold fetchWithTimeout at h2
        by_cases hto : TIMEOUT_MS < env2.elapsed
        · rw [if_pos hto] at h2
          exact absurd h2 (by simp)
        · rwa [if_neg hto] at h2
      have hpos2 : 0 < resp2.status := by
        rw [hres] at hpos
        simpa [statusPositive] using hpos
      cases hb : readBody resp2 with
      | thrown m => simp [checkHealth, h2, hb]
      | ok data =>
        simp [checkHealth, h2, hb]
        omega

/-- Witness for C6 (amended): the parse-failure probe, paired with the
healthy 200-JSON probe for the status-sentinel equivalence. -/
theorem c6_parse_failure_classification_witness :
    (fetchWithTimeout envParseFail TIMEOUT_MS = TryResult.ok respParseFail ∧
     readBody respParseFail = TryResult.thrown "Unexpected end of JSON input" ∧
     statusPositive envOk200.result = true) ∧
    (checkHealth demoEndpoint envParseFail =
      { name := demoEndpoint.name, url := demoEndpoint.url, status := 0,
        healthy := false, latency := none, response := none,
        error := some "Unexpected end of JSON input",
        timestamp := envParseFail.timestamp } ∧
     ((checkHealth demoEndpoint envOk200).status = 0 ↔
       ((checkHealth demoEndpoint envOk200).error).isSome = true)) :=
  ⟨⟨rfl, rfl, rfl⟩,
    c6_parse_failure_classification demoEndpoint envParseFail respParseFail
      "Unexpected end of JSON input" demoEndpoint envOk200 rfl rfl rfl⟩

/-- C7: the cache is only ever replaced wholesale — after any request the
cache is either untouched or equal to a whole fresh batch, the latter only
for non-OPTIONS requests to `/check`; the background tick is the only other
write site and also replaces the cache by a whole batch; `/last-check` and
`/check/{index}` requests leave the cache unchanged. -/
theorem c7_cache_write_sites (req : Request) (w : World) (st : List HealthRecord) :
    ((handler req w st).2 = st ∨
      ((handler req w st).2 = checkAll ENDPOINTS w ∧ req.path = "/check" ∧
        (req.method == "OPTIONS") = false)) ∧
    backgroundHealthCheck w = checkAll ENDPOINTS w ∧
    (handler { method := "GET", path := "/last-check" } w st).2 = st ∧
    (handler { method := "GET", path := "/check/0" } w st).2 = st ∧
    (handler { method := "GET", path := "/check/99" } w st).2 = st := by
  refine ⟨?_, rfl, rfl, rfl, rfl⟩
  by_cases hm : req.method = "OPTIONS"
  · left
    simp [handler, hm]
  · by_cases hp1 : req.path = "/"
    · left
      simp [handler, hm, hp1]
    · by_cases hp2 : req.path = "/check"
      · right
        refine ⟨?_, hp2, ?_⟩
        · simp [handler, hm, hp1, hp2]
        · simpa using hm
      · by_cases hp3 : req.path = "/last-check"
        · left
          simp [handler, hm, hp1, hp2, hp3]
        · left
          cases hidx : parseCheckIndex req.path with
          | none => simp [handler, hm, hp1, hp2, hp3, hidx]
          | some i =>
            by_cases hlt : i < ENDPOINTS.length
            · simp [handler, hm, hp1, hp2, hp3, hidx, hlt]
            · simp [handler, hm, hp1, hp2, hp3, hidx, hlt]

/-- C8: `/last-check` serves the cache verbatim without probing or writing:
on the initial empty cache it returns an empty array; after a `/check` or a
background tick it returns that batch's records; and two consecutive calls
with no intervening check return identical responses. -/
theorem c8_last_check_reads_cache (w w2 : World) (st : List HealthRecord) :
    handler { method := "GET", path := "/last-check" } w initialLastCheckResults =
      ({ status := 200, body := ResponseBody.jsonRecords [] },
        initialLastCheckResults) ∧
    handler { method := "GET", path := "/last-check" } w st =
      ({ status := 200, body := ResponseBody.jsonRecords st }, st) ∧
    (handler { method := "GET", path := "/last-check" } w2
        ((handler { method := "GET", path := "/check" } w st).2)).1.body =
      ResponseBody.jsonRecords (checkAll ENDPOINTS w) ∧
    (handler { method := "GET", path := "/last-check" } w2
        (backgroundHealthCheck w)).1.body =
      ResponseBody.jsonRecords (checkAll ENDPOINTS w) ∧
    (handler { method := "GET", path := "/last-check" } w2
        ((handler { method := "GET", path := "/last-check" } w st).2)).1 =
      (handler { method := "GET", path := "/last-check" } w st).1 :=
  ⟨rfl, rfl, rfl, rfl, rfl⟩

/-- C9: a `GET /check/{i}` request with `i` out of range answers 404 with
body "Not Found"; with `i` in range it answers 200 with the single record
`checkHealth` produces for endpoint `i` — the very record a full batch check
under the same world would put at position `i`. -/
theorem c9_single_check (w : World) (st : List HealthRecord) (p : String)
    (i : Nat) (hp : parseCheckIndex p = some i) :
    handler { method := "GET", path := p } w st =
      (if i < ENDPOINTS.length then
        ({ status := 200,
           body := ResponseBody.jsonRecord
             (checkHealth (ENDPOINTS.getD i default) (w i)) }, st)
       else ({ status := 404, body := ResponseBody.textBody "Not Found" }, st)) ∧
    (checkAll ENDPOINTS w)[i]? =
      (if i < ENDPOINTS.length then
        some (checkHealth (ENDPOINTS.getD i default) (w i)) else none) := by
  constructor
  · have hp1 : p ≠ "/" := by
      intro h
      rw [h] at hp
      simp [parseCheckIndex, dropPrefixChars] at hp
    have hp2 : p ≠ "/check" := by
      intro h
      rw [h] at hp
      simp [parseCheckIndex, dropPrefixChars] at hp
    have hp3 : p ≠ "/last-check" := by
      intro h
      rw [h] at hp
      simp [parseCheckIndex, dropPrefixChars] at hp
    simp [handler, hp1, hp2, hp3, hp]
  · rw [checkAll_getElem?]
    by_cases hi : i < ENDPOINTS.length
    · rw [if_pos hi, getD_of_lt ENDPOINTS i hi]
      rfl
    · rw [if_neg hi, List.getElem?_eq_none (Nat.le_of_not_lt hi)]
      rfl

/-- Witness for C9 at the in-range path `/check/1`. -/
theorem c9_single_check_witness :
    parseCheckIndex "/check/1" = some 1 ∧
    (handler { method := "GET", path := "/check/1" } demoWorld [] =
      (if 1 < ENDPOINTS.length then
        ({ status := 200,
           body := ResponseBody.jsonRecord
             (checkHealth (ENDPOINTS.getD 1 default) (demoWorld 1)) }, [])
       else ({ status := 404, body := ResponseBody.textBody "Not Found" }, [])) ∧
     (checkAll ENDPOINTS demoWorld)[1]? =
      (if 1 < ENDPOINTS.length then
        some (checkHealth (ENDPOINTS.getD 1 default) (demoWorld 1)) else none)) :=
  ⟨rfl, c9_single_check demoWorld [] "/check/1" 1 rfl⟩

/-- C10: the handler dispatches on the path alone once the OPTIONS preflight
is handled — a `/check` request with any non-OPTIONS method (POST, DELETE,
...) runs a fresh batch and overwrites the cache exactly as `GET /check`
does, rather than answering 404. -/
theorem c10_path_dispatch (m : String) (w : World) (st : List HealthRecord)
    (hm : (m == "OPTIONS") = false) :
    handler { method := m, path := "/check" } w st =
      ({ status := 200, body := ResponseBody.jsonRecords (checkAll ENDPOINTS w) },
        checkAll ENDPOINTS w) ∧
    handler { method := m, path := "/check" } w st =
      handler { method := "GET", path := "/check" } w st := by
  have hm2 : ¬ m = "OPTIONS" := by simpa using hm
  constructor
  · simp [handler, hm2]
  · simp [handler, hm2]

/-- Witness for C10 with a POST request. -/
theorem c10_path_dispatch_witness :
    (("POST" : String) == "OPTIONS") = false ∧
    (handler { method := "POST", path := "/check" } demoWorld [] =
      ({ status := 200,
         body := ResponseBody.jsonRecords (checkAll ENDPOINTS demoWorld) },
        checkAll ENDPOINTS demoWorld) ∧
     handler { method := "POST", path := "/check" } demoWorld [] =
      handler { method := "GET", path := "/check" } demoWorld []) :=
  ⟨rfl, c10_path_dispatch "POST" demoWorld [] rfl⟩
